import Mathlib

/-!
Verification development for the dashboard sync scripts
(`setup_10_consolidated_dashboards.py` and
`setup_production_dashboards_comprehensive.py`).

Both scripts share the same logic: wait for the Grafana health endpoint,
enumerate and delete all existing dashboards, load each catalog file from
disk, prepend a title marker, POST each document, and verify by counting
records whose title contains the marker.  The embedding below models the
scripts' pure control flow exactly; every HTTP interaction is an input
supplied by an environment (an oracle), and the requests the scripts issue
are collected in a trace.  An idealized endpoint model (from the spec's
data-model section, since the Grafana server is external to the repository)
is used for the claims that need a coherent remote state.
-/

/-- JSON values as produced by Python's json.load.  Numbers are modelled as
integers; floating point documents are outside the scope of the claims. -/
inductive Json where
  | null
  | bool (b : Bool)
  | num (n : Int)
  | str (s : String)
  | arr (elems : List Json)
  | obj (fields : List (String × Json))

/-- Lookup of a key in a JSON object field list (Python dicts have unique
keys, so first-match lookup coincides with dict lookup). -/
def lookupField : List (String × Json) → String → Option Json
  | [], _ => none
  | (k, v) :: rest, key => if k = key then some v else lookupField rest key

/-- Assignment `d[key] = v` on a Python dict: replaces the value in place if
the key exists (keeping its position), else appends the new key at the end. -/
def setField : List (String × Json) → String → Json → List (String × Json)
  | [], key, v => [(key, v)]
  | (k, w) :: rest, key, v =>
      if k = key then (k, v) :: rest else (k, w) :: setField rest key v

/-- Python str() of a JSON value, as used by the f-string that builds the
new title.  Scalars follow Python rendering exactly; the rendering of
containers is abstracted to a fixed marker since no behaviour in the
scripts depends on it (titles are strings in every claim). -/
def pyStr : Json → String
  | Json.null => "None"
  | Json.bool true => "True"
  | Json.bool false => "False"
  | Json.num n => toString n
  | Json.str s => s
  | Json.arr _ => "<list>"
  | Json.obj _ => "<dict>"

/-- Python truthiness of a JSON value (`if not dashboard_data`). -/
def Json.isTruthy : Json → Bool
  | Json.null => false
  | Json.bool b => b
  | Json.num n => n != 0
  | Json.str s => s != ""
  | Json.arr elems => !elems.isEmpty
  | Json.obj fields => !fields.isEmpty

/-- listIsPrefixOf p l decides whether p is a leading segment of l. -/
def listIsPrefixOf : List Char → List Char → Bool
  | [], _ => true
  | _ :: _, [] => false
  | a :: as, b :: bs => a = b && listIsPrefixOf as bs

/-- listContainsSub p l decides whether p occurs as a contiguous segment of
l (this is Python's substring test `p in l`). -/
def listContainsSub (p : List Char) : List Char → Bool
  | [] => listIsPrefixOf p []
  | c :: rest => listIsPrefixOf p (c :: rest) || listContainsSub p rest

/-- Python's `needle in hay` on strings: substring containment. -/
def pyIn (needle hay : String) : Bool :=
  listContainsSub needle.toList hay.toList

/-- State of one catalog file on disk: missing, present but not valid JSON
(json.load raises), or present with a parsed document. -/
inductive FileState where
  | absent
  | invalid
  | valid (doc : Json)

/-- Outcome of one health poll: an exception during the request (or during
response parsing), or an HTTP response with a status code and JSON body. -/
inductive PollOutcome where
  | exn
  | http (code : Nat) (body : Json)

/-- Outcome of a delete or create request. -/
inductive HttpOutcome where
  | exn
  | http (code : Nat)

/-- Remote dashboard record as seen through /api/search: the server-assigned
identifier and the (optional) title field of the search item. -/
structure Record where
  uid : String
  title : Option String

/-- Outcome of a search request: exception, non-200 status, or a 200
response carrying the record list. -/
inductive SearchOutcome where
  | exn
  | err (code : Nat)
  | ok (records : List Record)

/-- Requests issued against the endpoint (health polls are tracked by the
poll oracle separately, as the claims only constrain enumeration, deletion
and submission requests). -/
inductive Request where
  | search
  | del (uid : String)
  | create (doc : Json)

/-- isDel r holds when r is a deletion request. -/
def Request.isDel : Request → Bool
  | Request.del _ => true
  | _ => false

/-- isCreate r holds when r is a submission request. -/
def Request.isCreate : Request → Bool
  | Request.create _ => true
  | _ => false

/-- Environment oracle: the outcome of every external interaction the run
can perform.  The run issues two independent enumerations (one directly,
one inside delete_all_dashboards) plus one during verification; deletion
and creation outcomes are indexed by the position of the call. -/
structure Env where
  polls : Nat → PollOutcome
  searchRun : SearchOutcome
  searchDelete : SearchOutcome
  deleteOut : Nat → HttpOutcome
  fs : String → FileState
  createOut : Nat → HttpOutcome
  searchVerify : SearchOutcome

/-- Readiness test of one poll, from wait_for_grafana lines 82-93: ready
means HTTP 200 and the body's "database" field equal to "ok".  A non-dict
body makes health_data.get raise, which the surrounding except catches, so
it counts as not ready, as does any non-string "database" value. -/
def isReady : PollOutcome → Bool
  | PollOutcome.exn => false
  | PollOutcome.http code body =>
      if code = 200 then
        match body with
        | Json.obj fields =>
            match lookupField fields "database" with
            | some (Json.str s) => s = "ok"
            | _ => false
        | _ => false
      else false

/-- Poll loop of wait_for_grafana: iteration k runs while k * 2 < timeout
(time advances by the 2 time-unit sleep each iteration), so the fuel is the
number of poll attempts that start inside the timeout window. -/
def waitGo (polls : Nat → PollOutcome) : Nat → Nat → Bool
  | _, 0 => false
  | k, fuel + 1 => if isReady (polls k) then true else waitGo polls (k + 1) fuel

/-- wait_for_grafana (source lines 75-98): polls until ready or until the
timeout window (default 60 time-units, one poll every 2) is exhausted, and
returns a Bool — failure is returned, never raised. -/
def wait_for_grafana (polls : Nat → PollOutcome) (timeout : Nat) : Bool :=
  waitGo polls 0 ((timeout + 1) / 2)

/-- get_all_dashboards (source lines 100-111): returns the records of a 200
response and the empty list on any non-200 status or exception. -/
def get_all_dashboards : SearchOutcome → List Record
  | SearchOutcome.ok records => records
  | _ => []

/-- delete_dashboard (source lines 113-125): true exactly on HTTP 200;
non-200 and exceptions give false. -/
def delete_dashboard : HttpOutcome → Bool
  | HttpOutcome.http 200 => true
  | _ => false

/-- Deletion loop of delete_all_dashboards: issues one delete request per
enumerated record (the iteration never stops early) and counts successes. -/
def deleteAllGo (dOut : Nat → HttpOutcome) : Nat → List Record → Nat × List Request
  | _, [] => (0, [])
  | i, r :: rest =>
      let tail := deleteAllGo dOut (i + 1) rest
      ((if delete_dashboard (dOut i) then 1 else 0) + tail.1,
       Request.del r.uid :: tail.2)

/-- delete_all_dashboards (source lines 127-142): enumerates, returns true
immediately on an empty enumeration, else deletes every record and reports
success exactly when the success count equals the record count. -/
def delete_all_dashboards (so : SearchOutcome) (dOut : Nat → HttpOutcome) :
    Bool × List Request :=
  let recs := get_all_dashboards so
  if recs.isEmpty then (true, [Request.search])
  else
    let g := deleteAllGo dOut 0 recs
    (g.1 = recs.length, Request.search :: g.2)

/-- Title rewrite inside load_dashboard_json (source lines 154-157),
including the Python semantics of `"title" in dashboard_data` on non-dict
documents: on a dict the title value is replaced when the key exists; on a
list the membership test compares elements to the string "title" and a hit
makes the subsequent item assignment raise TypeError (caught, giving None);
on a string the membership test is a substring test with the same
consequence; on null, booleans and numbers the membership test itself
raises TypeError (caught, giving None). -/
def relabelTitle : Json → Option Json
  | Json.obj fields =>
      match lookupField fields "title" with
      | some v =>
          some (Json.obj (setField fields "title"
            (Json.str ("PROD: " ++ pyStr v))))
      | none => some (Json.obj fields)
  | Json.arr elems =>
      if elems.any (fun e => match e with | Json.str s => s = "title" | _ => false)
      then none else some (Json.arr elems)
  | Json.str s => if pyIn "title" s then none else some (Json.str s)
  | _ => none

/-- load_dashboard_json (source lines 144-161): None for a missing file or
a document that fails to parse, otherwise the parsed document with its
title relabelled. -/
def load_dashboard_json (fs : String → FileState) (path : String) : Option Json :=
  match fs path with
  | FileState.absent => none
  | FileState.invalid => none
  | FileState.valid doc => relabelTitle doc

/-- create_dashboard (source lines 163-190): true exactly on HTTP 200. -/
def create_dashboard : HttpOutcome → Bool
  | HttpOutcome.http 200 => true
  | _ => false

/-- One iteration of the deployment loop (source lines 199-213): load the
file; a None or falsy result skips the entry (`if not dashboard_data:
continue`) with no request; otherwise the document is submitted and the
entry counts as a success exactly when the submission returns 200. -/
def entryStep (fs : String → FileState) (out : HttpOutcome) (path : String) :
    Nat × List Request :=
  match load_dashboard_json fs path with
  | none => (0, [])
  | some doc =>
      if doc.isTruthy then
        ((if create_dashboard out then 1 else 0), [Request.create doc])
      else (0, [])

/-- Deployment loop over the catalog, threading the call index. -/
def deployGo (fs : String → FileState) (co : Nat → HttpOutcome) :
    Nat → List (String × String) → Nat × List Request
  | _, [] => (0, [])
  | i, (_, path) :: rest =>
      let s := entryStep fs (co i) path
      let tail := deployGo fs co (i + 1) rest
      (s.1 + tail.1, s.2 ++ tail.2)

/-- deploy_dashboards (source lines 192-219): reports success exactly when
the per-entry success count equals the catalog size. -/
def deploy_dashboards (fs : String → FileState) (co : Nat → HttpOutcome)
    (catalog : List (String × String)) : Bool × List Request :=
  let g := deployGo fs co 0 catalog
  (g.1 = catalog.length, g.2)

/-- Filter of verify_dashboards line 231: records whose title field (empty
string when absent) contains the substring "PROD:" — a containment test
with no trailing space, not a starts-with test. -/
def prodFiltered (recs : List Record) : List Record :=
  recs.filter (fun r => pyIn "PROD:" (r.title.getD ""))

/-- startsWithProdSpace r decides whether the record title literally starts
with "PROD: " (the prefix with its trailing space), the property named by
the specification. -/
def startsWithProdSpace (r : Record) : Bool :=
  listIsPrefixOf "PROD: ".toList (r.title.getD "").toList

/-- verify_dashboards (source lines 221-237): false on an empty enumeration
result, else success exactly when at least catalog-size records pass the
containment filter. -/
def verify_dashboards (so : SearchOutcome) (n : Nat) : Bool × List Request :=
  let recs := get_all_dashboards so
  if recs.isEmpty then (false, [Request.search])
  else (decide (n ≤ (prodFiltered recs).length), [Request.search])

/-- Requests issued by the conditional cleanup phase of run (source lines
249-255): the run enumerates once itself, and only when that enumeration is
non-empty does it call delete_all_dashboards (which enumerates again). -/
def cleanupTrace (env : Env) : List Request :=
  if (get_all_dashboards env.searchRun).isEmpty then []
  else (delete_all_dashboards env.searchDelete env.deleteOut).2

/-- run (source lines 239-283): readiness wait, conditional delete-all
(whose result is only logged, never used for control flow), deployment,
then verification; the first failing step returns false immediately.  The
second component is the trace of enumeration, deletion and submission
requests issued. -/
def run (env : Env) (catalog : List (String × String)) : Bool × List Request :=
  if wait_for_grafana env.polls 60 then
    let d := deploy_dashboards env.fs env.createOut catalog
    if d.1 then
      let v := verify_dashboards env.searchVerify catalog.length
      (v.1, Request.search :: (cleanupTrace env ++ d.2 ++ v.2))
    else (false, Request.search :: (cleanupTrace env ++ d.2))
  else (false, [])

/-- Ways the call manager.run() inside main's try block can end: a normal
return, a KeyboardInterrupt, or any other exception. -/
inductive MainEvent where
  | completes
  | interrupted
  | errored

/-- main (source lines 285-307): returns 0 exactly when run returned True;
a False run, an interrupt or an unexpected exception all print a message
and return 1, and exit(main()) makes that the process exit code. -/
def mainExit (env : Env) (catalog : List (String × String)) (ev : MainEvent) : Nat :=
  match ev with
  | MainEvent.completes => if (run env catalog).1 then 0 else 1
  | MainEvent.interrupted => 1
  | MainEvent.errored => 1

/-- Catalog file path under the provisioning directory (os.path.join of the
base directory and the fixed path segments). -/
def dashDir (base name : String) : String :=
  base ++ "/grafana/provisioning/dashboards/" ++ name

/-- Catalog of ConsolidatedDashboardManager (source lines 42-53), in
insertion order. -/
def dashboards (base : String) : List (String × String) :=
  [("data_ingestion", dashDir base "01_data_ingestion_collection_dashboard.json"),
   ("system_health", dashDir base "02_system_health_performance_dashboard.json"),
   ("raw_data", dashDir base "03_raw_data_explorer_dashboard.json"),
   ("entity_performance", dashDir base "04_entity_performance_analytics_dashboard.json"),
   ("home_occupancy", dashDir base "05_home_occupancy_security_dashboard.json"),
   ("energy_management", dashDir base "06_energy_management_sustainability_dashboard.json"),
   ("automation", dashDir base "07_automation_service_performance_dashboard.json"),
   ("device_communication", dashDir base "08_device_communication_network_health_dashboard.json"),
   ("predictive_maintenance", dashDir base "09_predictive_maintenance_anomaly_detection_dashboard.json"),
   ("data_quality", dashDir base "10_data_quality_validation_dashboard.json")]

/-- Catalog of ComprehensiveProductionDashboardManager (second script,
source lines 37-52), with working-directory-relative paths. -/
def production_dashboards : List (String × String) :=
  [("data_quality", "grafana/provisioning/dashboards/data_quality_validation_dashboard.json"),
   ("entity_performance", "grafana/provisioning/dashboards/entity_performance_dashboard.json"),
   ("system_health", "grafana/provisioning/dashboards/system_health_metrics_dashboard.json"),
   ("advanced_analytics", "grafana/provisioning/dashboards/advanced_analytics_dashboard.json"),
   ("data_retention", "grafana/provisioning/dashboards/data_retention_storage_dashboard.json"),
   ("raw_data_explorer", "grafana/provisioning/dashboards/raw_data_explorer_dashboard.json"),
   ("entity_relationships", "grafana/provisioning/dashboards/entity_relationship_dashboard.json"),
   ("data_patterns", "grafana/provisioning/dashboards/data_patterns_dashboard.json"),
   ("device_performance", "grafana/provisioning/dashboards/device_performance_dashboard.json"),
   ("home_occupancy", "grafana/provisioning/dashboards/home_occupancy_presence_dashboard.json"),
   ("energy_management", "grafana/provisioning/dashboards/energy_management_sustainability_dashboard.json"),
   ("automation_performance", "grafana/provisioning/dashboards/automation_performance_reliability_dashboard.json"),
   ("device_communication", "grafana/provisioning/dashboards/device_communication_network_health_dashboard.json"),
   ("predictive_maintenance", "grafana/provisioning/dashboards/predictive_maintenance_anomaly_detection_dashboard.json")]

/-- noDelAfterCreate t holds when no deletion request in the trace t occurs
after a submission request — the no-rollback property of a run. -/
def noDelAfterCreate : List Request → Bool
  | [] => true
  | r :: rest =>
      (if r.isCreate then rest.all (fun q => !q.isDel) else true)
      && noDelAfterCreate rest

/-- Modelled from the spec: the external endpoint assigns each created
record an identifier; a submitted document's own "uid" string field is used
when present, else a fixed generated tag (the repository does not contain
the server, so identifier assignment is modelled deterministically from the
submitted document). -/
def docUid (doc : Json) : String :=
  match doc with
  | Json.obj fields =>
      match lookupField fields "uid" with
      | some (Json.str u) => u
      | _ => "generated"
  | _ => "generated"

/-- Modelled from the spec: the title the endpoint records for a submitted
document is its top-level "title" string field when present. -/
def docTitle (doc : Json) : Option String :=
  match doc with
  | Json.obj fields =>
      match lookupField fields "title" with
      | some (Json.str t) => some t
      | _ => none
  | _ => none

/-- Record the idealized endpoint stores for a submitted document. -/
def mkRecord (doc : Json) : Record :=
  { uid := docUid doc, title := docTitle doc }

/-- Modelled from the spec: deletion by identifier removes the matching
records from the remote set. -/
def removeUid (recs : List Record) (u : String) : List Record :=
  recs.filter (fun r => r.uid != u)

/-- Effect on the remote set of deleting each identifier in turn. -/
def serverDeleteAll : List String → List Record → List Record
  | [], s => s
  | u :: us, s => serverDeleteAll us (removeUid s u)

/-- Deployment loop against the idealized endpoint (every submission
succeeds and appends a record; the spec's data model has no update in
place: created by submission, destroyed by deletion). -/
def deployServer (fs : String → FileState) :
    List (String × String) → List Record → Nat × List Record
  | [], s => (0, s)
  | (_, path) :: rest, s =>
      match load_dashboard_json fs path with
      | none => deployServer fs rest s
      | some doc =>
          if doc.isTruthy then
            let tail := deployServer fs rest (s ++ [mkRecord doc])
            (tail.1 + 1, tail.2)
          else deployServer fs rest s

/-- Modelled from the spec: the run of the script against the idealized
endpoint, whose search returns the current remote set and whose delete and
create requests always succeed.  Returns the run result and the final
remote set. -/
def runServer (polls : Nat → PollOutcome) (fs : String → FileState)
    (catalog : List (String × String)) (s : List Record) : Bool × List Record :=
  if wait_for_grafana polls 60 then
    let s1 := if s.isEmpty then s else serverDeleteAll (s.map Record.uid) s
    let d := deployServer fs catalog s1
    if d.1 = catalog.length then
      if d.2.isEmpty then (false, d.2)
      else (decide (catalog.length ≤ (prodFiltered d.2).length), d.2)
    else (false, d.2)
  else (false, s)

/-- Title field of a document when it is a JSON object (None otherwise and
when the key is missing). -/
def titleLookup : Json → Option Json
  | Json.obj fields => lookupField fields "title"
  | _ => none


/-- Environment in which the endpoint never answers: every health poll
raises, every other interaction is unreachable (outcomes supplied but
unused). -/
def envDown : Env :=
  ⟨fun _ => PollOutcome.exn, SearchOutcome.ok [], SearchOutcome.ok [],
   fun _ => HttpOutcome.http 200, fun _ => FileState.absent,
   fun _ => HttpOutcome.http 200, SearchOutcome.ok []⟩

/-- Health poll answer of a ready endpoint. -/
def readyPoll : PollOutcome :=
  PollOutcome.http 200 (Json.obj [("database", Json.str "ok")])

/-- Ten records whose titles contain the marker "PROD:" in the middle of
the title rather than at its start. -/
def midProdRecords : List Record :=
  (List.range 10).map (fun i => ⟨toString i, some "stale PROD: copy"⟩)

/-- Happy-path environment for the ten-entry catalog: the endpoint is
ready at once, no dashboards pre-exist, every catalog file holds a titled
object, every submission succeeds, and the verification enumeration
returns ten records properly carrying the full "PROD: " prefix. -/
def envHappy : Env :=
  ⟨fun _ => readyPoll, SearchOutcome.ok [], SearchOutcome.ok [],
   fun _ => HttpOutcome.http 200,
   fun _ => FileState.valid (Json.obj [("title", Json.str "T"), ("uid", Json.str "u")]),
   fun _ => HttpOutcome.http 200,
   SearchOutcome.ok ((List.range 10).map (fun i => ⟨toString i, some "PROD: T"⟩))⟩

/-- Environment identical to the happy path except that the verification
enumeration returns records whose titles merely contain "PROD:" without
starting with "PROD: ". -/
def envMidProd : Env :=
  ⟨fun _ => readyPoll, SearchOutcome.ok [], SearchOutcome.ok [],
   fun _ => HttpOutcome.http 200,
   fun _ => FileState.valid (Json.obj [("title", Json.str "T"), ("uid", Json.str "u")]),
   fun _ => HttpOutcome.http 200,
   SearchOutcome.ok midProdRecords⟩

/-- Environment whose filesystem lacks every catalog file. -/
def envNoFiles : Env :=
  ⟨fun _ => readyPoll, SearchOutcome.ok [], SearchOutcome.ok [],
   fun _ => HttpOutcome.http 200, fun _ => FileState.absent,
   fun _ => HttpOutcome.http 200, SearchOutcome.ok []⟩

/-- Environment whose catalog files all hold the empty JSON object — valid
JSON parsing to a falsy document. -/
def envFalsy : Env :=
  ⟨fun _ => readyPoll, SearchOutcome.ok [], SearchOutcome.ok [],
   fun _ => HttpOutcome.http 200, fun _ => FileState.valid (Json.obj []),
   fun _ => HttpOutcome.http 200, SearchOutcome.ok []⟩

/-- Every record of the remote set survives a stream of deletions only if
its identifier escapes the stream; deleting every enumerated identifier
therefore empties the set. -/
theorem serverDeleteAll_nil : ∀ (us : List String) (s : List Record),
    (∀ r ∈ s, r.uid ∈ us) → serverDeleteAll us s = [] := by
  intro us
  induction us with
  | nil =>
      intro s h
      cases s with
      | nil => rfl
      | cons r rest => exact absurd (h r (by simp)) (by simp)
  | cons u rest ih =>
      intro s h
      simp only [serverDeleteAll]
      apply ih
      intro r hr
      simp only [removeUid, List.mem_filter] at hr
      have hu : r.uid ∈ u :: rest := h r hr.1
      have hne : r.uid ≠ u := by
        simpa using hr.2
      simpa [hne] using hu

/-- Poll loop exhaustion: if no poll reachable with the remaining fuel is
ready, the loop returns false. -/
theorem waitGo_all_false (polls : Nat → PollOutcome) : ∀ (fuel start : Nat),
    (∀ j, j < fuel → isReady (polls (start + j)) = false) →
    waitGo polls start fuel = false := by
  intro fuel
  induction fuel with
  | zero => intro start _; rfl
  | succ n ih =>
      intro start h
      have h0 : isReady (polls start) = false := by
        simpa using h 0 (Nat.succ_pos n)
      simp only [waitGo, h0, if_false]
      apply ih
      intro j hj
      have := h (j + 1) (by omega)
      simpa [Nat.add_assoc, Nat.add_comm 1 j] using this

/-- Control flow of run on a failed readiness wait: the run returns false
with an empty request trace (no enumeration, deletion or submission). -/
theorem run_wait_false (env : Env) (catalog : List (String × String))
    (h : wait_for_grafana env.polls 60 = false) :
    run env catalog = (false, []) := by
  simp [run, h]

/-- Success characterization of run: the overall result is true exactly
when the readiness wait, the deployment step and the verification step all
report success. -/
theorem run_true_iff (env : Env) (catalog : List (String × String)) :
    (run env catalog).1 = true ↔
      (wait_for_grafana env.polls 60 = true
       ∧ (deploy_dashboards env.fs env.createOut catalog).1 = true
       ∧ (verify_dashboards env.searchVerify catalog.length).1 = true) := by
  cases hw : wait_for_grafana env.polls 60 with
  | false => simp [run, hw]
  | true =>
      cases hd : (deploy_dashboards env.fs env.createOut catalog).1 with
      | false => simp [run, hw, hd]
      | true => simp [run, hw, hd]

/-- Trace shape of run after a successful readiness wait: one enumeration,
the conditional cleanup, the deployment requests, and the verification
enumeration only when deployment succeeded. -/
theorem run_trace_ready (env : Env) (catalog : List (String × String))
    (h : wait_for_grafana env.polls 60 = true) :
    (run env catalog).2 =
      Request.search ::
        (cleanupTrace env
         ++ (deploy_dashboards env.fs env.createOut catalog).2
         ++ (if (deploy_dashboards env.fs env.createOut catalog).1
             then (verify_dashboards env.searchVerify catalog.length).2
             else [])) := by
  cases hd : (deploy_dashboards env.fs env.createOut catalog).1 with
  | false => simp [run, h, hd]
  | true => simp [run, h, hd]

/-- One catalog entry contributes at most one success to the deployment
count. -/
theorem entryStep_le (fs : String → FileState) (out : HttpOutcome) (p : String) :
    (entryStep fs out p).1 ≤ 1 := by
  unfold entryStep
  cases load_dashboard_json fs p with
  | none => simp
  | some doc =>
      cases h : doc.isTruthy <;> cases hc : create_dashboard out <;> simp [h, hc]

/-- A catalog entry whose load returns None is skipped: no success, no
request. -/
theorem entryStep_none (fs : String → FileState) (out : HttpOutcome) (p : String)
    (h : load_dashboard_json fs p = none) : entryStep fs out p = (0, []) := by
  simp [entryStep, h]

/-- A catalog entry whose loaded document is falsy is skipped: no success,
no request. -/
theorem entryStep_falsy (fs : String → FileState) (out : HttpOutcome) (p : String)
    (doc : Json) (h : load_dashboard_json fs p = some doc)
    (ht : doc.isTruthy = false) : entryStep fs out p = (0, []) := by
  simp [entryStep, h, ht]

/-- The deployment loop distributes over catalog concatenation: counts add
and traces concatenate, with the call index advanced past the first part. -/
theorem deployGo_append (fs : String → FileState) (co : Nat → HttpOutcome)
    (xs ys : List (String × String)) : ∀ i,
    deployGo fs co i (xs ++ ys)
      = ((deployGo fs co i xs).1 + (deployGo fs co (i + xs.length) ys).1,
         (deployGo fs co i xs).2 ++ (deployGo fs co (i + xs.length) ys).2) := by
  induction xs with
  | nil => intro i; simp [deployGo]
  | cons hd tl ih =>
      intro i
      obtain ⟨k, p⟩ := hd
      have e : i + (tl.length + 1) = (i + 1) + tl.length := by omega
      simp [deployGo, ih (i + 1), List.length_cons, e, Nat.add_assoc]

/-- The deployment success count never exceeds the catalog size. -/
theorem deployGo_le (fs : String → FileState) (co : Nat → HttpOutcome) :
    ∀ (xs : List (String × String)) (i : Nat),
    (deployGo fs co i xs).1 ≤ xs.length := by
  intro xs
  induction xs with
  | nil => intro i; simp [deployGo]
  | cons hd tl ih =>
      intro i
      obtain ⟨k, p⟩ := hd
      have h1 := entryStep_le fs (co i) p
      have h2 := ih (i + 1)
      simp only [deployGo, List.length_cons]
      omega

/-- Every request issued by the deployment loop is a submission of a
document that was loaded (and found truthy) from one of the catalog
files. -/
theorem deployGo_mem_create (fs : String → FileState) (co : Nat → HttpOutcome) :
    ∀ (xs : List (String × String)) (i : Nat) (r : Request),
    r ∈ (deployGo fs co i xs).2 →
    ∃ e, e ∈ xs ∧ ∃ doc, r = Request.create doc
      ∧ load_dashboard_json fs e.2 = some doc ∧ doc.isTruthy = true := by
  intro xs
  induction xs with
  | nil => intro i r h; simp [deployGo] at h
  | cons hd tl ih =>
      intro i r h
      obtain ⟨k, p⟩ := hd
      simp only [deployGo, List.mem_append] at h
      cases h with
      | inl hh =>
          refine ⟨(k, p), by simp, ?_⟩
          unfold entryStep at hh
          cases hl : load_dashboard_json fs p with
          | none => simp [hl] at hh
          | some doc =>
              rw [hl] at hh
              cases ht : doc.isTruthy with
              | false => simp [ht] at hh
              | true =>
                  simp [ht] at hh
                  exact ⟨doc, hh, by simp [hl], by simp [ht]⟩
      | inr hh =>
          obtain ⟨e, he, doc, hr, hl, ht⟩ := ih (i + 1) r hh
          exact ⟨e, by simp [he], doc, hr, hl, ht⟩

/-- The deletion loop issues exactly one delete request per enumerated
record, in order, regardless of per-record outcomes (failures never stop
the iteration). -/
theorem deleteAllGo_trace (dOut : Nat → HttpOutcome) :
    ∀ (recs : List Record) (i : Nat),
    (deleteAllGo dOut i recs).2 = recs.map (fun r => Request.del r.uid) := by
  intro recs
  induction recs with
  | nil => intro i; rfl
  | cons r rest ih => intro i; simp [deleteAllGo, ih (i + 1)]

/-- Trace of delete_all_dashboards: its own enumeration followed by one
delete request per enumerated record. -/
theorem delete_all_trace (so : SearchOutcome) (dOut : Nat → HttpOutcome) :
    (delete_all_dashboards so dOut).2 =
      Request.search :: (get_all_dashboards so).map (fun r => Request.del r.uid) := by
  unfold delete_all_dashboards
  cases h : (get_all_dashboards so).isEmpty with
  | true =>
      have : get_all_dashboards so = [] := by simpa [List.isEmpty_iff] using h
      simp [h, this]
  | false => simp [h, deleteAllGo_trace]

/-- Success characterization of verify_dashboards: true exactly when the
enumeration is non-empty and at least n of its records pass the "PROD:"
containment filter. -/
theorem verify_true_iff (so : SearchOutcome) (n : Nat) :
    (verify_dashboards so n).1 = true ↔
      (get_all_dashboards so ≠ [] ∧ n ≤ (prodFiltered (get_all_dashboards so)).length) := by
  unfold verify_dashboards
  cases h : (get_all_dashboards so).isEmpty with
  | true =>
      have : get_all_dashboards so = [] := by simpa [List.isEmpty_iff] using h
      simp [h, this]
  | false =>
      have : ¬ get_all_dashboards so = [] := by
        simpa [List.isEmpty_iff] using h
      simp [h, this]

/-- The cleanup phase issues only enumeration and deletion requests, never
a submission. -/
theorem cleanupTrace_no_create (env : Env) :
    ∀ r ∈ cleanupTrace env, r.isCreate = false := by
  intro r hr
  unfold cleanupTrace at hr
  cases h : (get_all_dashboards env.searchRun).isEmpty with
  | true => simp [h] at hr
  | false =>
      rw [h] at hr
      simp only [Bool.false_eq_true, if_false, delete_all_trace] at hr
      cases hr with
      | head => rfl
      | tail _ hm =>
          obtain ⟨x, _, hx⟩ := List.mem_map.mp hm
          rw [← hx]
          rfl

/-- Prefixing a trace with requests that are not submissions does not
affect the no-delete-after-create property of the remainder. -/
theorem noDelAfterCreate_append (pre rest : List Request)
    (h : ∀ r ∈ pre, r.isCreate = false) :
    noDelAfterCreate (pre ++ rest) = noDelAfterCreate rest := by
  induction pre with
  | nil => rfl
  | cons r tl ih =>
      have hr : r.isCreate = false := h r (by simp)
      have htl : ∀ q ∈ tl, q.isCreate = false := fun q hq => h q (by simp [hq])
      simp [noDelAfterCreate, hr, ih htl]

/-- A trace that contains no deletion request satisfies the
no-delete-after-create property. -/
theorem noDelAfterCreate_of_no_del (l : List Request)
    (h : ∀ r ∈ l, r.isDel = false) : noDelAfterCreate l = true := by
  induction l with
  | nil => rfl
  | cons r tl ih =>
      have htl : ∀ q ∈ tl, q.isDel = false := fun q hq => h q (by simp [hq])
      have hall : tl.all (fun q => !q.isDel) = true := by
        rw [List.all_eq_true]
        intro q hq
        simp [htl q hq]
      cases hc : r.isCreate <;> simp [noDelAfterCreate, hc, hall, ih htl]

/-- Rewriting one key of a JSON object leaves the lookup of every other key
unchanged. -/
theorem setField_frame (fields : List (String × Json)) (key : String) (v : Json) :
    ∀ k, k ≠ key → lookupField (setField fields key v) k = lookupField fields k := by
  induction fields with
  | nil =>
      intro k hk
      have hne : ¬ key = k := fun h => hk h.symm
      simp [setField, lookupField, hne]
  | cons hd tl ih =>
      intro k hk
      obtain ⟨k0, w⟩ := hd
      by_cases h0 : k0 = key
      · subst h0
        have hne : ¬ k0 = k := fun h => hk h.symm
        simp [setField, lookupField, hne]
      · simp [setField, h0, lookupField, ih k hk]

/-- Against the idealized endpoint, a run whose readiness wait fails leaves
the remote set untouched and reports failure. -/
theorem runServer_not_ready (polls : Nat → PollOutcome) (fs : String → FileState)
    (catalog : List (String × String)) (s : List Record)
    (h : wait_for_grafana polls 60 = false) :
    runServer polls fs catalog s = (false, s) := by
  simp [runServer, h]

/-- Against the idealized endpoint, a run whose readiness wait succeeds
always ends with the remote set rebuilt from scratch out of the catalog
files: the initial remote set is fully deleted (or already empty) and the
final set is determined by the filesystem and catalog alone. -/
theorem runServer_ready (polls : Nat → PollOutcome) (fs : String → FileState)
    (catalog : List (String × String)) (s : List Record)
    (h : wait_for_grafana polls 60 = true) :
    (runServer polls fs catalog s).2 = (deployServer fs catalog []).2 := by
  have hs1 : (if s.isEmpty then s else serverDeleteAll (s.map Record.uid) s) = [] := by
    cases he : s.isEmpty with
    | true => simpa [List.isEmpty_iff] using he
    | false =>
        simp only [Bool.false_eq_true, if_false]
        apply serverDeleteAll_nil
        intro r hr
        exact List.mem_map_of_mem Record.uid hr
  simp only [runServer, h, if_true, hs1]
  split
  · split <;> rfl
  · rfl

/-- Removing a catalog entry whose load returns None does not change the
remote set the deployment loop builds against the idealized endpoint. -/
theorem deployServer_skip (fs : String → FileState) (k p : String)
    (hp : load_dashboard_json fs p = none) :
    ∀ (pre post : List (String × String)) (s : List Record),
    (deployServer fs (pre ++ (k, p) :: post) s).2
      = (deployServer fs (pre ++ post) s).2 := by
  intro pre
  induction pre with
  | nil => intro post s; simp [deployServer, hp]
  | cons hd tl ih =>
      intro post s
      obtain ⟨k0, p0⟩ := hd
      simp only [List.cons_append, deployServer]
      cases hl : load_dashboard_json fs p0 with
      | none => exact ih post s
      | some doc =>
          cases ht : doc.isTruthy with
          | true => simp [ht, ih post (s ++ [mkRecord doc])]
          | false => simp [ht, ih post s]

/-- C2: for every sequence of health-poll outcomes in which no poll within
the 60 time-unit window (one poll per 2 time-units) is HTTP 200 with the
"database" field equal to "ok", the readiness wait returns failure (a
boolean, not an exception), and the run then returns failure having issued
no enumeration, deletion or submission request. -/
theorem timeout_aborts_run (env : Env) (catalog : List (String × String))
    (h : ∀ k, k * 2 < 60 → isReady (env.polls k) = false) :
    wait_for_grafana env.polls 60 = false ∧ run env catalog = (false, []) := by
  have hw : wait_for_grafana env.polls 60 = false := by
    unfold wait_for_grafana
    apply waitGo_all_false
    intro j hj
    have hj2 : j * 2 < 60 := by omega
    simpa using h j hj2
  exact ⟨hw, run_wait_false env catalog hw⟩

/-- Witness for timeout_aborts_run: an endpoint whose polls always raise. -/
theorem timeout_aborts_run_witness :
    wait_for_grafana envDown.polls 60 = false
    ∧ run envDown (dashboards "/w") = (false, []) :=
  timeout_aborts_run envDown (dashboards "/w") (fun _ _ => rfl)

/-- C8: the entry point converts every outcome of manager.run() inside its
try block — normal return, KeyboardInterrupt, or any other exception — into
an exit code of 0 or 1, never a raw crash, and the exit code is 0 exactly
when the run completed and reported full success. -/
theorem main_exit_code_spec (env : Env) (catalog : List (String × String))
    (ev : MainEvent) :
    (mainExit env catalog ev = 0 ∨ mainExit env catalog ev = 1)
    ∧ (mainExit env catalog ev = 0
        ↔ (ev = MainEvent.completes ∧ (run env catalog).1 = true)) := by
  cases ev with
  | completes => cases h : (run env catalog).1 <;> simp [mainExit, h]
  | interrupted => simp [mainExit]
  | errored => simp [mainExit]

/-- C5: the deletion step reports success exactly when every enumerated
record was deleted (in particular an empty enumeration is a success), it
issues one delete request per enumerated record so per-record failures
never stop the iteration, and the run proceeds to the deployment step
whenever the readiness wait succeeded, regardless of the deletion result
(which never appears in the run's control flow). -/
theorem delete_step_characterization (so : SearchOutcome) (dOut : Nat → HttpOutcome) :
    ((delete_all_dashboards so dOut).1 = true
       ↔ (deleteAllGo dOut 0 (get_all_dashboards so)).1
           = (get_all_dashboards so).length)
    ∧ (get_all_dashboards so = [] → (delete_all_dashboards so dOut).1 = true)
    ∧ ((delete_all_dashboards so dOut).2
        = Request.search :: (get_all_dashboards so).map (fun r => Request.del r.uid))
    ∧ (∀ (env : Env) (catalog : List (String × String)),
        wait_for_grafana env.polls 60 = true →
        (run env catalog).2 = Request.search ::
          (cleanupTrace env ++ (deploy_dashboards env.fs env.createOut catalog).2
           ++ (if (deploy_dashboards env.fs env.createOut catalog).1
               then (verify_dashboards env.searchVerify catalog.length).2 else []))) := by
  refine ⟨?_, ?_, delete_all_trace so dOut, fun env catalog h => run_trace_ready env catalog h⟩
  · unfold delete_all_dashboards
    cases h : (get_all_dashboards so).isEmpty with
    | true =>
        have he : get_all_dashboards so = [] := by simpa [List.isEmpty_iff] using h
        simp [h, he, deleteAllGo]
    | false => simp [h]
  · intro he
    simp [delete_all_dashboards, he]

/-- Witness for delete_step_characterization: with an empty enumeration the
deletion step reports success. -/
theorem delete_step_characterization_witness :
    (delete_all_dashboards (SearchOutcome.ok []) (fun _ => HttpOutcome.http 200)).1 = true :=
  (delete_step_characterization (SearchOutcome.ok []) (fun _ => HttpOutcome.http 200)).2.1 rfl

/-- Verification issues exactly one enumeration request. -/
theorem verify_trace (so : SearchOutcome) (n : Nat) :
    (verify_dashboards so n).2 = [Request.search] := by
  unfold verify_dashboards
  cases h : (get_all_dashboards so).isEmpty <;> simp [h]

/-- Every request the deployment loop issues is a submission. -/
theorem deployGo_no_del (fs : String → FileState) (co : Nat → HttpOutcome)
    (xs : List (String × String)) (i : Nat) :
    ∀ r ∈ (deployGo fs co i xs).2, r.isDel = false := by
  intro r hr
  obtain ⟨e, _, doc, hc, _, _⟩ := deployGo_mem_create fs co xs i r hr
  rw [hc]
  rfl

/-- C1: the run reports overall success exactly when the readiness wait,
the deployment step (success defined as the per-entry success count
equalling the catalog size) and the verification step all succeeded; a
failed readiness wait short-circuits everything (empty request trace), a
failed deployment short-circuits verification (the trace stops after the
deployment requests), and no deletion request is ever issued after a
submission request — records already created are never rolled back. -/
theorem run_overall_success_characterization (env : Env)
    (catalog : List (String × String)) :
    ((run env catalog).1 = true ↔
       (wait_for_grafana env.polls 60 = true
        ∧ (deploy_dashboards env.fs env.createOut catalog).1 = true
        ∧ (verify_dashboards env.searchVerify catalog.length).1 = true))
    ∧ ((deploy_dashboards env.fs env.createOut catalog).1 = true
        ↔ (deployGo env.fs env.createOut 0 catalog).1 = catalog.length)
    ∧ (wait_for_grafana env.polls 60 = false → run env catalog = (false, []))
    ∧ ((deploy_dashboards env.fs env.createOut catalog).1 = false →
        wait_for_grafana env.polls 60 = true →
        (run env catalog).2 = Request.search ::
          (cleanupTrace env ++ (deploy_dashboards env.fs env.createOut catalog).2))
    ∧ noDelAfterCreate (run env catalog).2 = true := by
  refine ⟨run_true_iff env catalog, by simp [deploy_dashboards],
    run_wait_false env catalog, ?_, ?_⟩
  · intro hd hw
    simp [run_trace_ready env catalog hw, hd]
  · cases hw : wait_for_grafana env.polls 60 with
    | false => simp [run_wait_false env catalog hw, noDelAfterCreate]
    | true =>
        rw [run_trace_ready env catalog hw]
        have hhead : (Request.search).isCreate = false := rfl
        have hsuffix : ∀ r ∈ ((deploy_dashboards env.fs env.createOut catalog).2
            ++ (if (deploy_dashboards env.fs env.createOut catalog).1
                then (verify_dashboards env.searchVerify catalog.length).2 else [])),
            r.isDel = false := by
          intro r hr
          rcases List.mem_append.mp hr with hm | hm
          · exact deployGo_no_del env.fs env.createOut catalog 0 r hm
          · unfold verify_dashboards at hm
            cases hb : (deploy_dashboards env.fs env.createOut catalog).1 with
            | false => simp [hb] at hm
            | true =>
                rw [hb] at hm
                simp only [if_true] at hm
                have : r = Request.search := by
                  rcases hm with hm
                  split at hm <;> simpa using hm
                rw [this]
                rfl
        have hca : noDelAfterCreate (cleanupTrace env
            ++ ((deploy_dashboards env.fs env.createOut catalog).2
                ++ (if (deploy_dashboards env.fs env.createOut catalog).1
                    then (verify_dashboards env.searchVerify catalog.length).2 else [])))
            = true := by
          rw [noDelAfterCreate_append _ _ (cleanupTrace_no_create env)]
          exact noDelAfterCreate_of_no_del _ hsuffix
        simp only [noDelAfterCreate, Request.isCreate, List.append_assoc] at hca ⊢
        simpa using hca

/-- Witness for run_overall_success_characterization: on the unreachable
endpoint the run returns false with an empty trace. -/
theorem run_overall_success_characterization_witness :
    run envDown (dashboards "/w") = (false, []) :=
  (run_overall_success_characterization envDown (dashboards "/w")).2.2.1 (by decide)

/-- Counterexample to C3 as stated: a full run succeeds (readiness ok, all
ten catalog entries submitted, verification passed) while not a single
record returned by the verification enumeration has a title starting with
"PROD: " — the code filters by substring containment of "PROD:" (no
trailing space), not by prefix. -/
theorem verify_startswith_claim_cex :
    (run envMidProd (dashboards "/w")).1 = true
    ∧ ((get_all_dashboards envMidProd.searchVerify).filter startsWithProdSpace).length
        < (dashboards "/w").length := by
  decide

/-- C3 amended: after a successful run the count of enumerated records
whose title contains the substring "PROD:" (no trailing space — a
containment test, not a starts-with test) is at least the catalog size,
and the verification step declares success exactly when the enumeration is
non-empty and that containment count is at least the catalog size; no
stronger check is performed. -/
theorem verify_substring_lower_bound (env : Env) (catalog : List (String × String)) :
    ((run env catalog).1 = true →
       catalog.length ≤ (prodFiltered (get_all_dashboards env.searchVerify)).length)
    ∧ (∀ (so : SearchOutcome) (n : Nat),
        (verify_dashboards so n).1 = true ↔
          (get_all_dashboards so ≠ []
           ∧ n ≤ (prodFiltered (get_all_dashboards so)).length)) := by
  constructor
  · intro h
    exact ((verify_true_iff _ _).mp ((run_true_iff env catalog).mp h).2.2).2
  · intro so n
    exact verify_true_iff so n

/-- Witness for verify_substring_lower_bound at the happy-path
environment. -/
theorem verify_substring_lower_bound_witness :
    (dashboards "/w").length
      ≤ (prodFiltered (get_all_dashboards envHappy.searchVerify)).length :=
  (verify_substring_lower_bound envHappy (dashboards "/w")).1 (by decide)

/-- C4: every document submitted during a run is exactly the result of
re-reading one catalog file from disk through load_dashboard_json, and for
a file holding an object with a string title t that load yields the same
object with only its title replaced by the exact string "PROD: " ++ t —
the prefix is applied exactly once per run. -/
theorem submitted_title_prefixed (env : Env) (catalog : List (String × String)) :
    (∀ doc, Request.create doc ∈ (run env catalog).2 →
       ∃ e, e ∈ catalog ∧ load_dashboard_json env.fs e.2 = some doc)
    ∧ (∀ (p : String) (fields : List (String × Json)) (t : String),
        env.fs p = FileState.valid (Json.obj fields) →
        lookupField fields "title" = some (Json.str t) →
        load_dashboard_json env.fs p
          = some (Json.obj (setField fields "title" (Json.str ("PROD: " ++ t))))) := by
  constructor
  · intro doc hmem
    cases hw : wait_for_grafana env.polls 60 with
    | false =>
        rw [run_wait_false env catalog hw] at hmem
        simp at hmem
    | true =>
        rw [run_trace_ready env catalog hw] at hmem
        cases hmem with
        | tail _ hm =>
            rcases List.mem_append.mp hm with hm1 | hm2
            · rcases List.mem_append.mp hm1 with hc | hd
              · have := cleanupTrace_no_create env _ hc
                simp [Request.isCreate] at this
              · obtain ⟨e, he, d, hcd, hl, _⟩ :=
                  deployGo_mem_create env.fs env.createOut catalog 0 _ hd
                cases hcd
                exact ⟨e, he, hl⟩
            · split at hm2
              · rw [verify_trace env.searchVerify catalog.length] at hm2
                simp at hm2
              · simp at hm2
  · intro p fields t hf ht
    unfold load_dashboard_json
    rw [hf]
    simp [relabelTitle, ht, pyStr]

/-- Witness for submitted_title_prefixed: the happy-path filesystem, whose
files hold a titled object. -/
theorem submitted_title_prefixed_witness :
    load_dashboard_json envHappy.fs "p"
      = some (Json.obj (setField [("title", Json.str "T"), ("uid", Json.str "u")]
          "title" (Json.str ("PROD: " ++ "T")))) :=
  (submitted_title_prefixed envHappy (dashboards "/w")).2 "p"
    [("title", Json.str "T"), ("uid", Json.str "u")] "T" rfl rfl

/-- C7: running the procedure twice in succession against the idealized
endpoint with the same filesystem and catalog leaves the remote state of
the second run equal to the state after the first run, and in particular
the final list of dashboard titles is the same — each ready run deletes
everything and recreates every loadable catalog entry from disk. -/
theorem rerun_idempotent (polls : Nat → PollOutcome) (fs : String → FileState)
    (catalog : List (String × String)) (s : List Record) :
    (runServer polls fs catalog (runServer polls fs catalog s).2).2
      = (runServer polls fs catalog s).2
    ∧ ((runServer polls fs catalog (runServer polls fs catalog s).2).2.map Record.title
        = (runServer polls fs catalog s).2.map Record.title) := by
  have key : (runServer polls fs catalog (runServer polls fs catalog s).2).2
      = (runServer polls fs catalog s).2 := by
    cases hw : wait_for_grafana polls 60 with
    | false =>
        have h1 := runServer_not_ready polls fs catalog s hw
        rw [h1]
        exact congrArg Prod.snd (runServer_not_ready polls fs catalog (false, s).2 hw)
    | true =>
        rw [runServer_ready polls fs catalog _ hw, runServer_ready polls fs catalog s hw]
  exact ⟨key, by rw [key]⟩

/-- C6: a catalog entry whose file is absent or holds invalid JSON loads as
None and is skipped entirely — it contributes no submission request and no
remote record — while the deployment loop continues and every other entry
contributes exactly the requests it would contribute on its own. -/
theorem missing_file_entry_skipped (env : Env) (pre post : List (String × String))
    (k p : String)
    (h : env.fs p = FileState.absent ∨ env.fs p = FileState.invalid) :
    load_dashboard_json env.fs p = none
    ∧ (∀ out, entryStep env.fs out p = (0, []))
    ∧ (deploy_dashboards env.fs env.createOut (pre ++ (k, p) :: post)).2
        = (deployGo env.fs env.createOut 0 pre).2
          ++ (deployGo env.fs env.createOut (pre.length + 1) post).2
    ∧ (∀ (polls : Nat → PollOutcome) (s : List Record),
        (runServer polls env.fs (pre ++ (k, p) :: post) s).2
          = (runServer polls env.fs (pre ++ post) s).2) := by
  have hload : load_dashboard_json env.fs p = none := by
    rcases h with h1 | h1 <;> simp [load_dashboard_json, h1]
  have hstep : ∀ out, entryStep env.fs out p = (0, []) :=
    fun out => entryStep_none env.fs out p hload
  refine ⟨hload, hstep, ?_, ?_⟩
  · show (deployGo env.fs env.createOut 0 (pre ++ (k, p) :: post)).2 = _
    rw [deployGo_append]
    simp [deployGo, hstep]
  · intro polls s
    cases hw : wait_for_grafana polls 60 with
    | false =>
        rw [runServer_not_ready polls env.fs (pre ++ (k, p) :: post) s hw,
            runServer_not_ready polls env.fs (pre ++ post) s hw]
    | true =>
        rw [runServer_ready polls env.fs (pre ++ (k, p) :: post) s hw,
            runServer_ready polls env.fs (pre ++ post) s hw]
        exact deployServer_skip env.fs k p hload pre post []

/-- Witness for missing_file_entry_skipped: a one-entry catalog whose file
is absent. -/
theorem missing_file_entry_skipped_witness :
    load_dashboard_json envNoFiles.fs "p" = none
    ∧ (∀ out, entryStep envNoFiles.fs out "p" = (0, []))
    ∧ (deploy_dashboards envNoFiles.fs envNoFiles.createOut [("k", "p")]).2
        = (deployGo envNoFiles.fs envNoFiles.createOut 0 []).2
          ++ (deployGo envNoFiles.fs envNoFiles.createOut 1 []).2
    ∧ (∀ (polls : Nat → PollOutcome) (s : List Record),
        (runServer polls envNoFiles.fs [("k", "p")] s).2
          = (runServer polls envNoFiles.fs [] s).2) :=
  missing_file_entry_skipped envNoFiles [] [] "k" "p" (Or.inl rfl)

/-- C9: a successfully loaded document is changed in at most its top-level
title field: a document without a title field (including non-object
documents that survive the membership test) is returned entirely
unchanged, and a document with a title field is returned with only that
field rewritten, every other key's lookup being preserved. -/
theorem load_relabel_frame (fs : String → FileState) (p : String) (doc : Json)
    (h : load_dashboard_json fs p = some doc) :
    ∃ d0, fs p = FileState.valid d0
      ∧ (titleLookup d0 = none → doc = d0)
      ∧ (∀ (fields : List (String × Json)) (v : Json),
          d0 = Json.obj fields → lookupField fields "title" = some v →
          doc = Json.obj (setField fields "title" (Json.str ("PROD: " ++ pyStr v)))
          ∧ (∀ k, k ≠ "title" →
              lookupField (setField fields "title" (Json.str ("PROD: " ++ pyStr v))) k
                = lookupField fields k)) := by
  cases hfs : fs p with
  | absent =>
      have hnone : load_dashboard_json fs p = none := by
        unfold load_dashboard_json
        rw [hfs]
      rw [hnone] at h
      cases h
  | invalid =>
      have hnone : load_dashboard_json fs p = none := by
        unfold load_dashboard_json
        rw [hfs]
      rw [hnone] at h
      cases h
  | valid d0 =>
      have hrel : relabelTitle d0 = some doc := by
        have he : load_dashboard_json fs p = relabelTitle d0 := by
          unfold load_dashboard_json
          rw [hfs]
        rw [he] at h
        exact h
      refine ⟨d0, rfl, ?_, ?_⟩
      · intro ht
        cases d0 with
        | obj fields =>
            simp only [titleLookup] at ht
            have hr2 : relabelTitle (Json.obj fields) = some (Json.obj fields) := by
              simp only [relabelTitle, ht]
            rw [hr2] at hrel
            exact (Option.some.inj hrel).symm
        | arr elems =>
            simp only [relabelTitle] at hrel
            split at hrel
            · cases hrel
            · exact (Option.some.inj hrel).symm
        | str s =>
            simp only [relabelTitle] at hrel
            split at hrel
            · cases hrel
            · exact (Option.some.inj hrel).symm
        | null => exact Option.noConfusion hrel
        | bool b => exact Option.noConfusion hrel
        | num n => exact Option.noConfusion hrel
      · intro fields v heq hl
        subst heq
        have hr2 : relabelTitle (Json.obj fields)
            = some (Json.obj (setField fields "title" (Json.str ("PROD: " ++ pyStr v)))) := by
          simp only [relabelTitle, hl]
        rw [hr2] at hrel
        exact ⟨(Option.some.inj hrel).symm, fun k hk =>
          setField_frame fields "title" (Json.str ("PROD: " ++ pyStr v)) k hk⟩

/-- Witness for load_relabel_frame at a titled object document. -/
theorem load_relabel_frame_witness :
    ∃ d0, envHappy.fs "p" = FileState.valid d0
      ∧ (titleLookup d0 = none →
          Json.obj [("title", Json.str ("PROD: " ++ "T")), ("uid", Json.str "u")] = d0)
      ∧ (∀ (fields : List (String × Json)) (v : Json),
          d0 = Json.obj fields → lookupField fields "title" = some v →
          Json.obj [("title", Json.str ("PROD: " ++ "T")), ("uid", Json.str "u")]
            = Json.obj (setField fields "title" (Json.str ("PROD: " ++ pyStr v)))
          ∧ (∀ k, k ≠ "title" →
              lookupField (setField fields "title" (Json.str ("PROD: " ++ pyStr v))) k
                = lookupField fields k)) :=
  load_relabel_frame envHappy.fs "p"
    (Json.obj [("title", Json.str ("PROD: " ++ "T")), ("uid", Json.str "u")]) rfl

/-- C10: a catalog file holding valid JSON that parses to a falsy document
(empty object, empty array, null, 0, false or the empty string) leaves the
entry skipped exactly like a load failure — no submission request, no
success — so the deployment step and hence the whole run report failure. -/
theorem falsy_document_skipped_and_fails (env : Env)
    (pre post : List (String × String)) (k p : String) (d : Json)
    (hf : env.fs p = FileState.valid d)
    (hd : d = Json.obj [] ∨ d = Json.arr [] ∨ d = Json.null ∨ d = Json.num 0
          ∨ d = Json.bool false ∨ d = Json.str "") :
    (∀ out, entryStep env.fs out p = (0, []))
    ∧ (deploy_dashboards env.fs env.createOut (pre ++ (k, p) :: post)).1 = false
    ∧ (run env (pre ++ (k, p) :: post)).1 = false := by
  have hl : load_dashboard_json env.fs p = relabelTitle d := by
    unfold load_dashboard_json
    rw [hf]
  have hstep : ∀ out, entryStep env.fs out p = (0, []) := by
    intro out
    rcases hd with h1 | h1 | h1 | h1 | h1 | h1 <;> subst h1
    · exact entryStep_falsy env.fs out p (Json.obj []) (by rw [hl]; rfl) rfl
    · exact entryStep_falsy env.fs out p (Json.arr []) (by rw [hl]; rfl) rfl
    · exact entryStep_none env.fs out p (by rw [hl]; rfl)
    · exact entryStep_none env.fs out p (by rw [hl]; rfl)
    · exact entryStep_none env.fs out p (by rw [hl]; rfl)
    · exact entryStep_falsy env.fs out p (Json.str "") (by rw [hl]; rfl) rfl
  have hcount : (deployGo env.fs env.createOut 0 (pre ++ (k, p) :: post)).1
      < (pre ++ (k, p) :: post).length := by
    rw [deployGo_append]
    have h1 := deployGo_le env.fs env.createOut pre 0
    have h2 := deployGo_le env.fs env.createOut post (0 + pre.length + 1)
    simp only [deployGo, hstep (env.createOut (0 + pre.length))]
    simp only [List.length_append, List.length_cons]
    omega
  have hdeploy : (deploy_dashboards env.fs env.createOut (pre ++ (k, p) :: post)).1
      = false := by
    have hc2 := hcount
    simp only [List.length_append, List.length_cons] at hc2
    simp [deploy_dashboards]
    omega
  refine ⟨hstep, hdeploy, ?_⟩
  cases hr : (run env (pre ++ (k, p) :: post)).1 with
  | false => rfl
  | true =>
      have := ((run_true_iff env (pre ++ (k, p) :: post)).mp hr).2.1
      rw [hdeploy] at this
      cases this

/-- Witness for falsy_document_skipped_and_fails: a one-entry catalog whose
file holds the empty JSON object. -/
theorem falsy_document_skipped_and_fails_witness :
    (∀ out, entryStep envFalsy.fs out "p" = (0, []))
    ∧ (deploy_dashboards envFalsy.fs envFalsy.createOut [("k", "p")]).1 = false
    ∧ (run envFalsy [("k", "p")]).1 = false :=
  falsy_document_skipped_and_fails envFalsy [] [] "k" "p" (Json.obj []) rfl (Or.inl rfl)
